import Mathlib

/-!
Shallow embedding of `packages/wakamex/customs/openrouter/openrouter.py`:
the retry-with-backoff wrapper `with_retries`, the request-payload assembly
of `_get_model_response`, and the `run` entry point.

Python floats are modelled as rationals, Python ints as `Int`, exceptions as
values of an explicit class enumeration, and the random jitter draws as
externally supplied sequences.  The wrapped network operation is modelled as
a function from the attempt index to a result (`Except PyErr String`), since
each attempt may succeed or fail independently.
-/

namespace OpenRouter

/-- Python exception classes relevant to the module.  `HTTPError`,
`ConnectionError` and `Timeout` are subclasses of `RequestException`;
`JSONDecodeError` is a subclass of `ValueError`.  `other` stands for any
class outside both `except` tuples (e.g. `openai.APIError`, `TypeError`). -/
inductive ErrClass where
  | requestException
  | httpError
  | connectionError
  | timeout
  | valueError
  | jsonDecodeError
  | other
deriving DecidableEq, Repr

/-- A raised Python exception: its class and its `str(exc)` rendering. -/
structure PyErr where
  cls : ErrClass
  msg : String
deriving DecidableEq, Repr

/-- The `except` tuple of `with_retries` (openrouter.py lines 55-60):
`RequestException`, `HTTPError`, `ConnectionError`, `Timeout`, `ValueError`,
`JSONDecodeError`. -/
def retryable : ErrClass → Bool
  | .requestException => true
  | .httpError => true
  | .connectionError => true
  | .timeout => true
  | .valueError => true
  | .jsonDecodeError => true
  | .other => false

/-- The `except` clause of `run` (line 192): `(RequestException, JSONDecodeError)`.
By Python subclassing this catches `HTTPError`, `ConnectionError` and
`Timeout` as well, but not a plain `ValueError`. -/
def caughtByRun : ErrClass → Bool
  | .requestException => true
  | .httpError => true
  | .connectionError => true
  | .timeout => true
  | .jsonDecodeError => true
  | .valueError => false
  | .other => false

/-- Transport-level failures: `RequestException` and its listed subclasses. -/
def transportErr : ErrClass → Bool
  | .requestException => true
  | .httpError => true
  | .connectionError => true
  | .timeout => true
  | _ => false

-- Constants (openrouter.py lines 32-37)
def DEFAULT_MAX_RETRIES : Int := 3
def DEFAULT_INITIAL_DELAY : ℚ := 1
def DEFAULT_RETRY_MULTIPLIER : ℚ := 3/2
def DEFAULT_MAX_DELAY : ℚ := 60
def DEFAULT_MODEL : String := "nvidia/llama-3.1-nemotron-70b-instruct:free"
def DEFAULT_TEMPERATURE : ℚ := 1

/-- What the Python wrapper hands back to its caller: a normal return
(`none` is Python's implicit `None` when the `while` loop is never entered,
`some a` a value returned from the body) or a raised exception. -/
inductive Outcome (A : Type) where
  | returned : Option A → Outcome A
  | raised : PyErr → Outcome A
deriving DecidableEq, Repr

/-- Observable trace of one `wrapper(...)` execution: its outcome, how many
times `func` was invoked, the clamped delays before the additive jitter
(the value of `delay` right after line 70), and the delays actually passed
to `time.sleep` (line 74). -/
structure RetryTrace (A : Type) where
  outcome : Outcome A
  calls : Nat
  preJitterDelays : List ℚ
  sleeps : List ℚ
deriving DecidableEq, Repr

/-- Python's two-argument `min` on floats: the smaller argument
(the first on a tie), i.e. `if a ≤ b then a else b`. -/
def pymin (a b : ℚ) : ℚ := if a ≤ b then a else b

/-- The `while retries <= max_retries` loop of `with_retries`
(lines 49-76), with `fuel` the number of further iterations the loop
condition still allows (`max_retries - retries + 1` clamped at `0`),
`k` the index of the next attempt, and `delay` the current delay variable.
`u k` is the `random.uniform(0.9, 1.1)` draw and `f k` the fraction in
`[0, 1]` such that the additive jitter `random.uniform(0, 0.1 * delay)`
equals `f k * (0.1 * delay)`, both for the backoff computed after attempt
`k` fails. -/
def retryAux (op : Nat → Except PyErr A) (u f : Nat → ℚ) (mult maxDelay : ℚ) :
    Nat → Nat → ℚ → RetryTrace A
  | 0, _, _ => ⟨.returned none, 0, [], []⟩
  | 1, k, _ =>
    -- Last attempt the loop condition allows.  On success the result is
    -- returned; on a retryable failure `retries` becomes `max_retries + 1`
    -- and the exception is re-raised (line 64); a non-retryable failure is
    -- not caught at all.  Either way a failure here is raised with one
    -- invocation and no sleep, so the `retryable` test is not observable.
    match op k with
    | .ok a => ⟨.returned (some a), 1, [], []⟩
    | .error e => ⟨.raised e, 1, [], []⟩
  | fuel' + 2, k, delay =>
    match op k with
    | .ok a => ⟨.returned (some a), 1, [], []⟩
    | .error e =>
      if retryable e.cls then
        let d1 : ℚ := pymin (delay * (mult * u k)) maxDelay
        let d2 : ℚ := d1 + f k * (1/10 * d1)
        let rest := retryAux op u f mult maxDelay (fuel' + 1) (k + 1) d2
        ⟨rest.outcome, rest.calls + 1, d1 :: rest.preJitterDelays, d2 :: rest.sleeps⟩
      else ⟨.raised e, 1, [], []⟩

/-- `with_retries`' wrapper applied to an operation, with the retry
configuration `max_retries`, `initial_delay`, `retry_multiplier`,
`max_delay` popped from the keyword arguments (lines 44-47). -/
def withRetries (op : Nat → Except PyErr A) (u f : Nat → ℚ)
    (maxRetries : Int) (initialDelay mult maxDelay : ℚ) : RetryTrace A :=
  retryAux op u f mult maxDelay (maxRetries + 1).toNat 0 initialDelay

/-- JSON-like values, enough to express the chat-completion request body. -/
inductive JVal where
  | null : JVal
  | str : String → JVal
  | num : ℚ → JVal
  | int : Int → JVal
  | bool : Bool → JVal
  | arr : List JVal → JVal
  | obj : List (String × JVal) → JVal

/-- The keyword parameters of `_get_model_response` (lines 79-96), with the
Python defaults (`temperature` defaults to `DEFAULT_TEMPERATURE`; every
other optional parameter defaults to `None`).  Literal-typed parameters are
modelled by their string values. -/
structure ModelParams where
  model : String
  prompt : String
  api_key : String
  temperature : Option ℚ := some DEFAULT_TEMPERATURE
  frequency_penalty : Option ℚ := none
  presence_penalty : Option ℚ := none
  logprobs : Option Bool := none
  max_tokens : Option Int := none
  response_format : Option String := none
  provider_order : Option (List String) := none
  allow_fallbacks : Option Bool := none
  require_parameters : Option Bool := none
  data_collection : Option String := none
  ignore_providers : Option (List String) := none
  quantizations : Option (List String) := none
  sort : Option String := none

/-- One entry of a dict comprehension filtered by `if v is not None`. -/
def optEntry (k : String) : Option JVal → List (String × JVal)
  | none => []
  | some v => [(k, v)]

/-- `provider_prefs` (lines 110-118): the provider-routing preferences with
non-`None` values, in the order they are listed in the source. -/
def provider_prefs (p : ModelParams) : List (String × JVal) :=
  optEntry "order" (p.provider_order.map (fun l => .arr (l.map .str))) ++
  optEntry "allow_fallbacks" (p.allow_fallbacks.map .bool) ++
  optEntry "require_parameters" (p.require_parameters.map .bool) ++
  optEntry "data_collection" (p.data_collection.map .str) ++
  optEntry "ignore" (p.ignore_providers.map (fun l => .arr (l.map .str))) ++
  optEntry "quantizations" (p.quantizations.map (fun l => .arr (l.map .str))) ++
  optEntry "sort" (p.sort.map .str)

/-- `params` (lines 121-127): the sampling parameters with non-`None`
values, in source order. -/
def params (p : ModelParams) : List (String × JVal) :=
  optEntry "frequency_penalty" (p.frequency_penalty.map .num) ++
  optEntry "presence_penalty" (p.presence_penalty.map .num) ++
  optEntry "logprobs" (p.logprobs.map .bool) ++
  optEntry "max_tokens" (p.max_tokens.map .int) ++
  optEntry "response_format" (p.response_format.map .str)

/-- `extra_body` (line 130): `{"provider": provider_prefs} if provider_prefs
else None` — an empty dict is falsy in Python. -/
def extra_body (p : ModelParams) : Option (List (String × JVal)) :=
  match provider_prefs p with
  | [] => none
  | l => some [("provider", .obj l)]

/-- The serialized chat-completion request body assembled by the
`client.chat.completions.create` call (lines 132-140): `model`, the single
user message, `temperature` (always passed explicitly), the unpacked
`params`, and the `extra_body` merged in when present. -/
def requestPayload (p : ModelParams) : List (String × JVal) :=
  [("model", .str p.model),
   ("messages", .arr [.obj [("role", .str "user"), ("content", .str p.prompt)]]),
   ("temperature", match p.temperature with | some q => .num q | none => .null)] ++
  params p ++
  (match extra_body p with | none => [] | some l => l)

/-- The fixed 4-tuple `run` returns: `(message, prompt_used, transaction,
cost)`; the last three are always `None` in this module. -/
structure RunTuple where
  fst : Option String
  snd : Option String
  thd : Option String
  fth : Option String
deriving DecidableEq, Repr

/-- What a call of `run` does: return a 4-tuple, or let an exception
escape. -/
inductive RunOutcome where
  | returned : RunTuple → RunOutcome
  | raised : PyErr → RunOutcome
deriving DecidableEq, Repr

/-- The keyword arguments `run` reads (lines 167-187), with `none` for an
absent key.  `api_keys` is the credential mapping, modelled as an
association list. -/
structure RunKwargs where
  prompt : Option String := none
  api_keys : List (String × String) := []
  model : Option String := none
  max_retries : Option Int := none
  initial_delay : Option ℚ := none
  retry_multiplier : Option ℚ := none
  max_delay : Option ℚ := none

/-- Python `dict.get`: the value at the key, or `None`. -/
def dictGet (d : List (String × String)) (k : String) : Option String :=
  (d.find? (fun p => p.1 == k)).map Prod.snd

/-- Python truthiness test `not x` for an optional string: `True` exactly
for `None` and the empty string. -/
def falsyStr : Option String → Bool
  | none => true
  | some s => s == ""

/-- `f"Error while calling OpenRouter API: {str(exc)}"` (line 193). -/
def errorMsg (e : PyErr) : String := "Error while calling OpenRouter API: " ++ e.msg

/-- The retry trace produced by a call of `run`: empty when validation
fails before the network call, otherwise the trace of the wrapped
`_get_model_response` with the caller-supplied or default retry
configuration (lines 184-187). -/
def runTrace (kw : RunKwargs) (op : Nat → Except PyErr String) (u f : Nat → ℚ) :
    RetryTrace String :=
  if falsyStr kw.prompt then ⟨.returned none, 0, [], []⟩
  else if falsyStr (dictGet kw.api_keys "openrouter") then ⟨.returned none, 0, [], []⟩
  else withRetries op u f (kw.max_retries.getD DEFAULT_MAX_RETRIES)
    (kw.initial_delay.getD DEFAULT_INITIAL_DELAY)
    (kw.retry_multiplier.getD DEFAULT_RETRY_MULTIPLIER)
    (kw.max_delay.getD DEFAULT_MAX_DELAY)

/-- The `run` entry point (lines 146-195).  The behaviour of the wrapped
`_get_model_response` attempt is supplied as `op`; `u`, `f` are the jitter
draws.  `run` catches only `(RequestException, JSONDecodeError)` around the
wrapped call; any other exception escapes. -/
def run (kw : RunKwargs) (op : Nat → Except PyErr String) (u f : Nat → ℚ) :
    RunOutcome :=
  if falsyStr kw.prompt then
    .returned ⟨some "No prompt has been specified.", none, none, none⟩
  else if falsyStr (dictGet kw.api_keys "openrouter") then
    .returned ⟨some "No OpenRouter API key has been specified.", none, none, none⟩
  else
    match (withRetries op u f (kw.max_retries.getD DEFAULT_MAX_RETRIES)
      (kw.initial_delay.getD DEFAULT_INITIAL_DELAY)
      (kw.retry_multiplier.getD DEFAULT_RETRY_MULTIPLIER)
      (kw.max_delay.getD DEFAULT_MAX_DELAY)).outcome with
    | .returned v => .returned ⟨v, none, none, none⟩
    | .raised e =>
      if caughtByRun e.cls then .returned ⟨some (errorMsg e), none, none, none⟩
      else .raised e

/-! ### Concrete inputs used to instantiate the theorems -/

/-- Jitter draw fixed at the centre of `[0.9, 1.1]`. -/
def uOne : Nat → ℚ := fun _ => 1

/-- Jitter draw fixed at the lower end of `[0.9, 1.1]`. -/
def uLow : Nat → ℚ := fun _ => 9/10

/-- Additive-jitter fraction fixed at `0` (draw `uniform(0, 0.1*d) = 0`). -/
def fZero : Nat → ℚ := fun _ => 0

/-- Additive-jitter fraction fixed at `1` (draw `uniform(0, 0.1*d) = 0.1*d`). -/
def fOne : Nat → ℚ := fun _ => 1

/-- An operation that succeeds immediately with response text `"4"`. -/
def opOk4 : Nat → Except PyErr String := fun _ => .ok "4"

/-- An operation that fails every attempt with `requests.exceptions.Timeout`. -/
def opTimeout : Nat → Except PyErr String := fun _ => .error ⟨.timeout, "boom"⟩

/-- An operation that fails every attempt with a plain `ValueError`. -/
def opValueErr : Nat → Except PyErr String := fun _ => .error ⟨.valueError, "bad"⟩

/-- An operation that fails every attempt with a class outside the retryable
set (e.g. `openai.APIError`). -/
def opOther : Nat → Except PyErr String := fun _ => .error ⟨.other, "api down"⟩

/-- An operation that fails the first two attempts with `Timeout`, then
succeeds. -/
def opFailTwice : Nat → Except PyErr String :=
  fun k => if k < 2 then .error ⟨.timeout, "t"⟩ else .ok "4"

/-- A valid call of `run`: prompt and API key present, defaults otherwise. -/
def kwValid : RunKwargs := { prompt := some "2+2?", api_keys := [("openrouter", "key")] }

/-- Valid call with `max_retries = 0`. -/
def kwValidZero : RunKwargs :=
  { prompt := some "2+2?", api_keys := [("openrouter", "key")], max_retries := some 0 }

/-- Valid call with `max_retries = 2`. -/
def kwValidTwo : RunKwargs :=
  { prompt := some "2+2?", api_keys := [("openrouter", "key")], max_retries := some 2 }

/-- Valid call with `max_retries = -1`. -/
def kwValidNeg : RunKwargs :=
  { prompt := some "2+2?", api_keys := [("openrouter", "key")], max_retries := some (-1) }

/-- Call with an empty prompt. -/
def kwNoPrompt : RunKwargs := { prompt := some "", api_keys := [("openrouter", "key")] }

/-- Call with a prompt but no `"openrouter"` credential. -/
def kwNoKey : RunKwargs := { prompt := some "hi" }

/-- Model-call parameters with exactly one provider-routing preference. -/
def pSortOnly : ModelParams :=
  { model := "m", prompt := "p", api_key := "k", sort := some "price" }

/-! ### Basic lemmas about the retry loop -/

theorem pymin_eq_min (a b : ℚ) : pymin a b = min a b := by
  simp [pymin, min_def]

theorem pymin_le_right (a b : ℚ) : pymin a b ≤ b := by
  rw [pymin_eq_min]; exact min_le_right a b

theorem pymin_nonneg {a b : ℚ} (ha : 0 ≤ a) (hb : 0 ≤ b) : 0 ≤ pymin a b := by
  rw [pymin_eq_min]; exact le_min ha hb

theorem pymin_mono_left {a a' : ℚ} (b : ℚ) (h : a ≤ a') : pymin a b ≤ pymin a' b := by
  rw [pymin_eq_min, pymin_eq_min]; exact min_le_min h le_rfl

theorem retryAux_zero (op : Nat → Except PyErr A) (u f : Nat → ℚ) (mult maxDelay : ℚ)
    (k : Nat) (delay : ℚ) :
    retryAux op u f mult maxDelay 0 k delay = ⟨.returned none, 0, [], []⟩ := rfl

theorem retryAux_ok (op : Nat → Except PyErr A) (u f : Nat → ℚ) (mult maxDelay : ℚ)
    (fuel k : Nat) (delay : ℚ) (a : A) (h : op k = Except.ok a) :
    retryAux op u f mult maxDelay (fuel + 1) k delay =
      ⟨.returned (some a), 1, [], []⟩ := by
  match fuel with
  | 0 => simp only [retryAux, h]
  | fuel' + 1 => simp only [retryAux, h]

theorem retryAux_one_err (op : Nat → Except PyErr A) (u f : Nat → ℚ)
    (mult maxDelay : ℚ) (k : Nat) (delay : ℚ) (e : PyErr)
    (h : op k = Except.error e) :
    retryAux op u f mult maxDelay 1 k delay = ⟨.raised e, 1, [], []⟩ := by
  simp only [retryAux, h]

theorem retryAux_nonretryable (op : Nat → Except PyErr A) (u f : Nat → ℚ)
    (mult maxDelay : ℚ) (fuel k : Nat) (delay : ℚ) (e : PyErr)
    (h : op k = Except.error e) (hnr : retryable e.cls = false) :
    retryAux op u f mult maxDelay (fuel + 1) k delay = ⟨.raised e, 1, [], []⟩ := by
  match fuel with
  | 0 => simp only [retryAux, h]
  | fuel' + 1 => simp only [retryAux, h, hnr, Bool.false_eq_true, if_false]

theorem retryAux_step (op : Nat → Except PyErr A) (u f : Nat → ℚ)
    (mult maxDelay : ℚ) (fuel' k : Nat) (delay : ℚ) (e : PyErr)
    (h : op k = Except.error e) (hr : retryable e.cls = true) :
    retryAux op u f mult maxDelay (fuel' + 2) k delay =
      (let d1 : ℚ := pymin (delay * (mult * u k)) maxDelay
       let d2 : ℚ := d1 + f k * (1/10 * d1)
       let rest := retryAux op u f mult maxDelay (fuel' + 1) (k + 1) d2
       ⟨rest.outcome, rest.calls + 1, d1 :: rest.preJitterDelays, d2 :: rest.sleeps⟩) := by
  simp only [retryAux, h, hr, if_true]

theorem retryAux_calls_of_ok (op : Nat → Except PyErr A) (u f : Nat → ℚ)
    (mult maxDelay : ℚ)
    (hretry : ∀ k e, op k = Except.error e → retryable e.cls = true) :
    ∀ fuel s k delay a, op (k + s) = Except.ok a →
      (∀ j, j < s → ∃ e, op (k + j) = Except.error e) →
      (retryAux op u f mult maxDelay fuel k delay).calls = min (s + 1) fuel := by
  intro fuel
  induction fuel with
  | zero => intro s k delay a _ _; simp [retryAux_zero]
  | succ n ih =>
    intro s k delay a hok hfail
    cases s with
    | zero =>
      rw [Nat.add_zero] at hok
      rw [retryAux_ok op u f mult maxDelay n k delay a hok]
      dsimp only
      omega
    | succ s' =>
      obtain ⟨e, he⟩ := hfail 0 (Nat.succ_pos s')
      rw [Nat.add_zero] at he
      have hr := hretry k e he
      cases n with
      | zero =>
        rw [retryAux_one_err op u f mult maxDelay k delay e he]
        dsimp only
        omega
      | succ n' =>
        rw [retryAux_step op u f mult maxDelay n' k delay e he hr]
        dsimp only
        have hok' : op ((k + 1) + s') = Except.ok a := by
          have : (k + 1) + s' = k + (s' + 1) := by omega
          rw [this]; exact hok
        have hfail' : ∀ j, j < s' → ∃ e, op ((k + 1) + j) = Except.error e := by
          intro j hj
          have : (k + 1) + j = k + (j + 1) := by omega
          rw [this]; exact hfail (j + 1) (by omega)
        rw [ih s' (k + 1) _ a hok' hfail']
        omega

theorem retryAux_allfail (op : Nat → Except PyErr A) (u f : Nat → ℚ)
    (mult maxDelay : ℚ)
    (hretry : ∀ k e, op k = Except.error e → retryable e.cls = true) :
    ∀ fuel k delay, (∀ j, j < fuel → ∃ e, op (k + j) = Except.error e) →
      (retryAux op u f mult maxDelay fuel k delay).calls = fuel ∧
      ∀ e, op (k + fuel - 1) = Except.error e → fuel ≠ 0 →
        (retryAux op u f mult maxDelay fuel k delay).outcome = .raised e := by
  intro fuel
  induction fuel with
  | zero => intro k delay _; simp [retryAux_zero]
  | succ n ih =>
    intro k delay hfail
    obtain ⟨e0, he0⟩ := hfail 0 (Nat.succ_pos n)
    rw [Nat.add_zero] at he0
    have hr := hretry k e0 he0
    cases n with
    | zero =>
      rw [retryAux_one_err op u f mult maxDelay k delay e0 he0]
      refine ⟨rfl, ?_⟩
      intro e he _
      have : k + 1 - 1 = k := by omega
      rw [this] at he
      rw [he0] at he
      cases he
      rfl
    | succ n' =>
      rw [retryAux_step op u f mult maxDelay n' k delay e0 he0 hr]
      dsimp only
      have hfail' : ∀ j, j < n' + 1 → ∃ e, op ((k + 1) + j) = Except.error e := by
        intro j hj
        have : (k + 1) + j = k + (j + 1) := by omega
        rw [this]; exact hfail (j + 1) (by omega)
      obtain ⟨hcalls, hout⟩ := ih (k + 1) _ hfail'
      refine ⟨by rw [hcalls], ?_⟩
      intro e he _
      have harg : (k + 1) + (n' + 1) - 1 = k + (n' + 1 + 1) - 1 := by omega
      rw [harg] at hout
      exact hout e he (by omega)

theorem retryAux_outcome_cases (op : Nat → Except PyErr A) (u f : Nat → ℚ)
    (mult maxDelay : ℚ) :
    ∀ fuel k delay, fuel ≠ 0 →
      (∃ j a, op j = Except.ok a ∧
        (retryAux op u f mult maxDelay fuel k delay).outcome = .returned (some a)) ∨
      (∃ j e, op j = Except.error e ∧
        (retryAux op u f mult maxDelay fuel k delay).outcome = .raised e) := by
  intro fuel
  induction fuel with
  | zero => intro k delay h; exact absurd rfl h
  | succ n ih =>
    intro k delay _
    cases hop : op k with
    | ok a =>
      left
      exact ⟨k, a, hop, by rw [retryAux_ok op u f mult maxDelay n k delay a hop]⟩
    | error e =>
      cases n with
      | zero =>
        right
        exact ⟨k, e, hop, by rw [retryAux_one_err op u f mult maxDelay k delay e hop]⟩
      | succ n' =>
        cases hr : retryable e.cls with
        | false =>
          right
          refine ⟨k, e, hop, ?_⟩
          rw [retryAux_nonretryable op u f mult maxDelay (n' + 1) k delay e hop hr]
        | true =>
          rw [retryAux_step op u f mult maxDelay n' k delay e hop hr]
          dsimp only
          exact ih (k + 1) _ (by omega)

theorem retryAux_delay_bounds (op : Nat → Except PyErr A) (u f : Nat → ℚ)
    (mult maxDelay : ℚ)
    (hu : ∀ k, 9/10 ≤ u k ∧ u k ≤ 11/10) (hf : ∀ k, 0 ≤ f k ∧ f k ≤ 1)
    (hm : 0 ≤ mult) (hmd : 0 ≤ maxDelay) :
    ∀ fuel k delay, 0 ≤ delay →
      (∀ d ∈ (retryAux op u f mult maxDelay fuel k delay).preJitterDelays,
        0 ≤ d ∧ d ≤ maxDelay) ∧
      (∀ d ∈ (retryAux op u f mult maxDelay fuel k delay).sleeps,
        0 ≤ d ∧ d ≤ 11/10 * maxDelay) := by
  intro fuel
  induction fuel with
  | zero => intro k delay _; simp [retryAux_zero]
  | succ n ih =>
    intro k delay hdelay
    cases hop : op k with
    | ok a => rw [retryAux_ok op u f mult maxDelay n k delay a hop]; simp
    | error e =>
      cases n with
      | zero => rw [retryAux_one_err op u f mult maxDelay k delay e hop]; simp
      | succ n' =>
        cases hr : retryable e.cls with
        | false =>
          rw [retryAux_nonretryable op u f mult maxDelay (n' + 1) k delay e hop hr]
          simp
        | true =>
          rw [retryAux_step op u f mult maxDelay n' k delay e hop hr]
          dsimp only
          have hu1 := (hu k).1
          have hu2 := (hu k).2
          have hf1 := (hf k).1
          have hf2 := (hf k).2
          have harg : 0 ≤ delay * (mult * u k) :=
            mul_nonneg hdelay (mul_nonneg hm (by linarith))
          have hd1l : 0 ≤ pymin (delay * (mult * u k)) maxDelay :=
            pymin_nonneg harg hmd
          have hd1r : pymin (delay * (mult * u k)) maxDelay ≤ maxDelay :=
            pymin_le_right _ _
          set d1 : ℚ := pymin (delay * (mult * u k)) maxDelay with hd1
          have hjit : 0 ≤ f k * (1/10 * d1) :=
            mul_nonneg hf1 (by linarith)
          have hd2l : 0 ≤ d1 + f k * (1/10 * d1) := by linarith
          have hd2r : d1 + f k * (1/10 * d1) ≤ 11/10 * maxDelay := by
            nlinarith
          obtain ⟨ihpre, ihsleep⟩ := ih (k + 1) (d1 + f k * (1/10 * d1)) hd2l
          constructor
          · intro d hd
            rcases List.mem_cons.mp hd with h | h
            · exact ⟨h ▸ hd1l, h ▸ hd1r⟩
            · exact ihpre d h
          · intro d hd
            rcases List.mem_cons.mp hd with h | h
            · exact ⟨h ▸ hd2l, h ▸ hd2r⟩
            · exact ihsleep d h

theorem retryAux_preJitter_lower (op : Nat → Except PyErr A) (u f : Nat → ℚ)
    (mult maxDelay : ℚ)
    (hu : ∀ k, 9/10 ≤ u k) (hf : ∀ k, 0 ≤ f k)
    (hm : 0 ≤ mult) (hmd : 0 ≤ maxDelay) :
    ∀ fuel k delay, 0 ≤ delay →
      ∀ pd ∈ (delay :: (retryAux op u f mult maxDelay fuel k delay).sleeps).zip
          (retryAux op u f mult maxDelay fuel k delay).preJitterDelays,
        pymin (pd.1 * (mult * (9/10))) maxDelay ≤ pd.2 := by
  intro fuel
  induction fuel with
  | zero => intro k delay _; simp [retryAux_zero]
  | succ n ih =>
    intro k delay hdelay
    cases hop : op k with
    | ok a => rw [retryAux_ok op u f mult maxDelay n k delay a hop]; simp
    | error e =>
      cases n with
      | zero => rw [retryAux_one_err op u f mult maxDelay k delay e hop]; simp
      | succ n' =>
        cases hr : retryable e.cls with
        | false =>
          rw [retryAux_nonretryable op u f mult maxDelay (n' + 1) k delay e hop hr]
          simp
        | true =>
          rw [retryAux_step op u f mult maxDelay n' k delay e hop hr]
          dsimp only
          have hu1 := hu k
          have hf1 := hf k
          have harg : 0 ≤ delay * (mult * u k) :=
            mul_nonneg hdelay (mul_nonneg hm (by linarith))
          have hd1l : 0 ≤ pymin (delay * (mult * u k)) maxDelay :=
            pymin_nonneg harg hmd
          set d1 : ℚ := pymin (delay * (mult * u k)) maxDelay with hd1
          have hjit : 0 ≤ f k * (1/10 * d1) :=
            mul_nonneg hf1 (by linarith)
          have hd2l : 0 ≤ d1 + f k * (1/10 * d1) := by linarith
          intro pd hpd
          rw [List.zip_cons_cons] at hpd
          rcases List.mem_cons.mp hpd with h | h
          · subst h
            dsimp only
            rw [hd1]
            refine pymin_mono_left _ ?_
            have : mult * (9/10) ≤ mult * u k :=
              mul_le_mul_of_nonneg_left (by linarith) hm
            calc delay * (mult * (9/10)) ≤ delay * (mult * u k) :=
                  mul_le_mul_of_nonneg_left this hdelay
              _ = delay * (mult * u k) := rfl
          · exact ih (k + 1) (d1 + f k * (1/10 * d1)) hd2l pd h

theorem transportErr_retryable_caught (c : ErrClass) (h : transportErr c = true) :
    retryable c = true ∧ caughtByRun c = true := by
  cases c <;> simp_all [transportErr, retryable, caughtByRun]

theorem run_eq_of_valid (kw : RunKwargs) (op : Nat → Except PyErr String)
    (u f : Nat → ℚ)
    (hp : falsyStr kw.prompt = false)
    (hk : falsyStr (dictGet kw.api_keys "openrouter") = false) :
    run kw op u f =
      match (withRetries op u f (kw.max_retries.getD DEFAULT_MAX_RETRIES)
        (kw.initial_delay.getD DEFAULT_INITIAL_DELAY)
        (kw.retry_multiplier.getD DEFAULT_RETRY_MULTIPLIER)
        (kw.max_delay.getD DEFAULT_MAX_DELAY)).outcome with
      | .returned v => .returned ⟨v, none, none, none⟩
      | .raised e =>
        if caughtByRun e.cls then .returned ⟨some (errorMsg e), none, none, none⟩
        else .raised e := by
  simp [run, hp, hk]

theorem runTrace_eq_of_valid (kw : RunKwargs) (op : Nat → Except PyErr String)
    (u f : Nat → ℚ)
    (hp : falsyStr kw.prompt = false)
    (hk : falsyStr (dictGet kw.api_keys "openrouter") = false) :
    runTrace kw op u f =
      withRetries op u f (kw.max_retries.getD DEFAULT_MAX_RETRIES)
        (kw.initial_delay.getD DEFAULT_INITIAL_DELAY)
        (kw.retry_multiplier.getD DEFAULT_RETRY_MULTIPLIER)
        (kw.max_delay.getD DEFAULT_MAX_DELAY) := by
  simp [runTrace, hp, hk]

theorem optEntry_keys (k : String) (v : Option JVal) (x : String) :
    x ∈ (optEntry k v).map Prod.fst ↔ (x = k ∧ v.isSome = true) := by
  cases v <;> simp [optEntry]

theorem pair_mem_optEntry (k x : String) (v : Option JVal) (y : JVal) :
    (x, y) ∈ optEntry k v ↔ (x = k ∧ v = some y) := by
  cases v <;> simp [optEntry, eq_comm]

/-! ### Claim theorems -/

/-- C6: with `max_retries = 0`, the Retry Policy Wrapper invokes the
operation exactly once and never sleeps, regardless of whether that single
attempt succeeds or fails. -/
theorem C6_single_attempt_no_sleep (op : Nat → Except PyErr String)
    (u f : Nat → ℚ) (d0 m md : ℚ) :
    (withRetries op u f 0 d0 m md).calls = 1 ∧
    (withRetries op u f 0 d0 m md).sleeps = [] := by
  have hfuel : ((0 : Int) + 1).toNat = 1 := rfl
  unfold withRetries
  rw [hfuel]
  cases hop : op 0 with
  | ok a =>
    have heq : retryAux op u f m md 1 0 d0 = ⟨.returned (some a), 1, [], []⟩ :=
      retryAux_ok op u f m md 0 0 d0 a hop
    rw [heq]
    exact ⟨rfl, rfl⟩
  | error e =>
    rw [retryAux_one_err op u f m md 0 d0 e hop]
    exact ⟨rfl, rfl⟩

/-- C5: when the wrapped operation fails with an error class outside the
retryable set, the Retry Policy Wrapper propagates that error to its caller
immediately, without consuming a retry attempt and without sleeping. -/
theorem C5_nonretryable_immediate (op : Nat → Except PyErr String)
    (u f : Nat → ℚ) (mr : Int) (d0 m md : ℚ) (e : PyErr)
    (hmr : 0 ≤ mr) (h0 : op 0 = Except.error e) (hnr : retryable e.cls = false) :
    (withRetries op u f mr d0 m md).outcome = .raised e ∧
    (withRetries op u f mr d0 m md).calls = 1 ∧
    (withRetries op u f mr d0 m md).sleeps = [] := by
  have hfuel : (mr + 1).toNat = ((mr + 1).toNat - 1) + 1 := by omega
  unfold withRetries
  rw [hfuel]
  rw [retryAux_nonretryable op u f m md ((mr + 1).toNat - 1) 0 d0 e h0 hnr]
  exact ⟨rfl, rfl, rfl⟩

/-- C5 witness: a failure of a class outside the retryable set (modelled by
`opOther`) is raised after exactly one invocation, with no sleep. -/
theorem C5_nonretryable_immediate_witness :
    (withRetries opOther uOne fZero 3 1 (3/2) 60).outcome = .raised ⟨.other, "api down"⟩ ∧
    (withRetries opOther uOne fZero 3 1 (3/2) 60).calls = 1 ∧
    (withRetries opOther uOne fZero 3 1 (3/2) 60).sleeps = [] :=
  C5_nonretryable_immediate opOther uOne fZero 3 1 (3/2) 60 ⟨.other, "api down"⟩
    (by norm_num) rfl rfl

/-- C2: for a retry configuration with `max_retries ≥ 0` and an operation
whose failures are all of retryable classes, the wrapper invokes the
operation `min(first-success-attempt, max_retries + 1)` times; a success on
the first invocation is returned immediately with no sleep and no further
invocation; after `max_retries + 1` consecutive retryable failures the last
failure is propagated to the caller. -/
theorem C2_attempt_count (op : Nat → Except PyErr String) (u f : Nat → ℚ)
    (mr : Int) (d0 m md : ℚ) (hmr : 0 ≤ mr)
    (hretry : ∀ k e, op k = Except.error e → retryable e.cls = true) :
    (∀ s a, op s = Except.ok a → (∀ j, j < s → ∃ e, op j = Except.error e) →
      (withRetries op u f mr d0 m md).calls = min (s + 1) (mr + 1).toNat) ∧
    (∀ a, op 0 = Except.ok a →
      (withRetries op u f mr d0 m md).outcome = .returned (some a) ∧
      (withRetries op u f mr d0 m md).calls = 1 ∧
      (withRetries op u f mr d0 m md).sleeps = []) ∧
    ((∀ j, j < (mr + 1).toNat → ∃ e, op j = Except.error e) →
      (withRetries op u f mr d0 m md).calls = (mr + 1).toNat ∧
      ∀ e, op ((mr + 1).toNat - 1) = Except.error e →
        (withRetries op u f mr d0 m md).outcome = .raised e) := by
  refine ⟨?_, ?_, ?_⟩
  · intro s a hok hfail
    unfold withRetries
    exact retryAux_calls_of_ok op u f m md hretry (mr + 1).toNat s 0 d0 a
      (by simpa using hok) (by intro j hj; simpa using hfail j hj)
  · intro a hok
    have hfuel : (mr + 1).toNat = ((mr + 1).toNat - 1) + 1 := by omega
    unfold withRetries
    rw [hfuel]
    have heq : retryAux op u f m md (((mr + 1).toNat - 1) + 1) 0 d0 =
        ⟨.returned (some a), 1, [], []⟩ :=
      retryAux_ok op u f m md ((mr + 1).toNat - 1) 0 d0 a hok
    rw [heq]
    exact ⟨rfl, rfl, rfl⟩
  · intro hfail
    unfold withRetries
    obtain ⟨hcalls, hout⟩ := retryAux_allfail op u f m md hretry (mr + 1).toNat 0 d0
      (by intro j hj; simpa using hfail j hj)
    refine ⟨hcalls, ?_⟩
    intro e he
    exact hout e (by simpa using he) (by omega)

/-- C2 witness: an operation failing twice with `Timeout` and then
succeeding, under `max_retries = 3`, is invoked `min(3, 4) = 3` times. -/
theorem C2_attempt_count_witness :
    (withRetries opFailTwice uOne fZero 3 1 (3/2) 60).calls = 3 := by
  have h := (C2_attempt_count opFailTwice uOne fZero 3 1 (3/2) 60 (by norm_num)
    (by
      intro k e hk
      unfold opFailTwice at hk
      by_cases hlt : k < 2
      · simp only [hlt, if_true] at hk
        cases hk
        rfl
      · simp only [hlt, if_false] at hk
        cases hk)).1 2 "4"
    (by unfold opFailTwice; norm_num)
    (by
      intro j hj
      exact ⟨⟨.timeout, "t"⟩, by unfold opFailTwice; simp [hj]⟩)
  simpa using h

/-- C3 counterexample: with `initial_delay = max_delay = 60`,
`retry_multiplier = 1.5`, admissible jitter draws (`u = 1 ∈ [0.9, 1.1]`,
additive jitter at its maximum `0.1 × delay`), the delay actually slept is
`66 > max_delay`: the final computed delay is NOT clamped to `max_delay`,
because the additive jitter is applied after the clamp. -/
theorem C3_counterexample :
    (withRetries opTimeout uOne fOne 1 60 (3/2) 60).sleeps = [66] ∧
    ¬((66 : ℚ) ≤ 60) := by
  constructor
  · norm_num [withRetries, retryAux, pymin, retryable, opTimeout, uOne, fOne]
  · norm_num

/-- C3 amended: the clamp to `max_delay` applies to the delay computed
before the additive jitter; every pre-jitter delay is at most `max_delay`,
and the delay actually slept exceeds it by at most the 10% additive jitter,
so it is at most `1.1 × max_delay`. -/
theorem C3_clamp_amended (op : Nat → Except PyErr String) (u f : Nat → ℚ)
    (mr : Int) (d0 m md : ℚ)
    (hu : ∀ k, 9/10 ≤ u k ∧ u k ≤ 11/10) (hf : ∀ k, 0 ≤ f k ∧ f k ≤ 1)
    (hm : 0 ≤ m) (hmd : 0 ≤ md) (hd0 : 0 ≤ d0) :
    (∀ d ∈ (withRetries op u f mr d0 m md).preJitterDelays, d ≤ md) ∧
    (∀ d ∈ (withRetries op u f mr d0 m md).sleeps, d ≤ 11/10 * md) := by
  obtain ⟨hpre, hsleep⟩ :=
    retryAux_delay_bounds op u f m md hu hf hm hmd (mr + 1).toNat 0 d0 hd0
  exact ⟨fun d hd => (hpre d hd).2, fun d hd => (hsleep d hd).2⟩

/-- C3 amended witness: in the counterexample configuration the slept delay
`66` is within the amended bound `1.1 × 60 = 66`. -/
theorem C3_clamp_amended_witness :
    (66 : ℚ) ≤ 11/10 * 60 :=
  (C3_clamp_amended opTimeout uOne fOne 1 60 (3/2) 60
    (by intro k; constructor <;> norm_num [uOne])
    (by intro k; constructor <;> norm_num [fOne])
    (by norm_num) (by norm_num) (by norm_num)).2 66
    (by norm_num [withRetries, retryAux, pymin, retryable, opTimeout, uOne, fOne])

/-- C4 counterexample: with `initial_delay = max_delay = 60`,
`retry_multiplier = 1.5` and multiplicative jitter draw `0.9`, the computed
pre-jitter delay is the clamped value `60`, which is strictly below
`prior delay × multiplier × 0.9 = 81`: the claimed lower bound fails when
the clamp binds. -/
theorem C4_counterexample :
    (withRetries opTimeout uLow fZero 1 60 (3/2) 60).preJitterDelays = [60] ∧
    ¬(60 * ((3 : ℚ)/2) * (9/10) ≤ 60) := by
  constructor
  · norm_num [withRetries, retryAux, pymin, retryable, opTimeout, uLow, fZero]
  · norm_num

/-- C4 amended: each slept inter-attempt delay is at most
`max_delay × 1.21`, and each computed delay before the additive jitter is at
least `min(prior delay × multiplier × 0.9, max_delay)` — the claimed lower
bound holds only up to the clamp at `max_delay`. -/
theorem C4_delay_bounds_amended (op : Nat → Except PyErr String)
    (u f : Nat → ℚ) (mr : Int) (d0 m md : ℚ)
    (hu : ∀ k, 9/10 ≤ u k ∧ u k ≤ 11/10) (hf : ∀ k, 0 ≤ f k ∧ f k ≤ 1)
    (hm : 0 ≤ m) (hmd : 0 ≤ md) (hd0 : 0 ≤ d0) :
    (∀ d ∈ (withRetries op u f mr d0 m md).sleeps, d ≤ 121/100 * md) ∧
    (∀ pd ∈ (d0 :: (withRetries op u f mr d0 m md).sleeps).zip
        (withRetries op u f mr d0 m md).preJitterDelays,
      pymin (pd.1 * (m * (9/10))) md ≤ pd.2) := by
  constructor
  · intro d hd
    have h := ((retryAux_delay_bounds op u f m md hu hf hm hmd
      (mr + 1).toNat 0 d0 hd0).2 d hd).2
    linarith
  · exact retryAux_preJitter_lower op u f m md (fun k => (hu k).1)
      (fun k => (hf k).1) hm hmd (mr + 1).toNat 0 d0 hd0

/-- C4 amended witness: in the C4 counterexample configuration, the first
backoff has prior delay `60` and pre-jitter delay `60`, and the amended
lower bound `min(60 × 1.5 × 0.9, 60) = 60 ≤ 60` holds. -/
theorem C4_delay_bounds_amended_witness :
    pymin ((60, 60).1 * ((3/2 : ℚ) * (9/10))) 60 ≤ ((60 : ℚ), (60 : ℚ)).2 :=
  (C4_delay_bounds_amended opTimeout uLow fZero 1 60 (3/2) 60
    (by intro k; constructor <;> norm_num [uLow])
    (by intro k; constructor <;> norm_num [fZero])
    (by norm_num) (by norm_num) (by norm_num)).2 (60, 60)
    (by norm_num [withRetries, retryAux, pymin, retryable, opTimeout, uLow, fZero])

/-- C8: run validates in order: a missing or empty prompt yields
`("No prompt has been specified.", None, None, None)` without invoking the
model call; otherwise a missing or empty API key under `"openrouter"` yields
`("No OpenRouter API key has been specified.", None, None, None)` without
invoking the model call. -/
theorem C8_validation_order (kw : RunKwargs) (op : Nat → Except PyErr String)
    (u f : Nat → ℚ) :
    (falsyStr kw.prompt = true →
      run kw op u f =
        .returned ⟨some "No prompt has been specified.", none, none, none⟩ ∧
      (runTrace kw op u f).calls = 0) ∧
    (falsyStr kw.prompt = false →
      falsyStr (dictGet kw.api_keys "openrouter") = true →
      run kw op u f =
        .returned ⟨some "No OpenRouter API key has been specified.", none, none, none⟩ ∧
      (runTrace kw op u f).calls = 0) := by
  constructor
  · intro hp
    constructor
    · simp [run, hp]
    · simp [runTrace, hp]
  · intro hp hk
    constructor
    · simp [run, hp, hk]
    · simp [runTrace, hp, hk]

/-- C8 witness: an empty prompt, and a missing key with a present prompt,
return the two validation tuples with the operation never invoked. -/
theorem C8_validation_order_witness :
    (run kwNoPrompt opOk4 uOne fZero =
      .returned ⟨some "No prompt has been specified.", none, none, none⟩ ∧
     (runTrace kwNoPrompt opOk4 uOne fZero).calls = 0) ∧
    (run kwNoKey opOk4 uOne fZero =
      .returned ⟨some "No OpenRouter API key has been specified.", none, none, none⟩ ∧
     (runTrace kwNoKey opOk4 uOne fZero).calls = 0) :=
  ⟨(C8_validation_order kwNoPrompt opOk4 uOne fZero).1 (by decide),
   (C8_validation_order kwNoKey opOk4 uOne fZero).2 (by decide) (by decide)⟩

/-- C10: a negative `max_retries` passed through `run` makes the wrapper's
loop condition false at entry: the wrapped operation is never invoked, the
wrapper returns Python's implicit `None`, and `run` returns
`(None, None, None, None)` — a first element that is neither a model answer
nor an error message. -/
theorem C10_negative_max_retries (kw : RunKwargs) (op : Nat → Except PyErr String)
    (u f : Nat → ℚ) (mneg : Int)
    (hmr : kw.max_retries = some mneg) (hneg : mneg < 0)
    (hp : falsyStr kw.prompt = false)
    (hk : falsyStr (dictGet kw.api_keys "openrouter") = false) :
    (runTrace kw op u f).calls = 0 ∧
    run kw op u f = .returned ⟨none, none, none, none⟩ := by
  have hfuel : (kw.max_retries.getD DEFAULT_MAX_RETRIES + 1).toNat = 0 := by
    rw [hmr]
    simp only [Option.getD_some]
    omega
  constructor
  · rw [runTrace_eq_of_valid kw op u f hp hk]
    unfold withRetries
    rw [hfuel, retryAux_zero]
  · rw [run_eq_of_valid kw op u f hp hk]
    unfold withRetries
    rw [hfuel, retryAux_zero]

/-- C10 witness: `max_retries = -1` with a valid prompt and key gives zero
invocations and the all-`None` tuple. -/
theorem C10_negative_max_retries_witness :
    (runTrace kwValidNeg opOk4 uOne fZero).calls = 0 ∧
    run kwValidNeg opOk4 uOne fZero = .returned ⟨none, none, none, none⟩ :=
  C10_negative_max_retries kwValidNeg opOk4 uOne fZero (-1) rfl (by norm_num)
    (by decide) (by decide)

/-- C9: when every attempt fails with a retryable transport error and `run`
is called with `max_retries = 2`, the operation is attempted exactly 3 times
and `run` returns the 4-tuple whose first element is the fixed prefix
followed by the last error's message. -/
theorem C9_retry_exhaustion (kw : RunKwargs) (op : Nat → Except PyErr String)
    (u f : Nat → ℚ)
    (hmr : kw.max_retries = some 2)
    (hp : falsyStr kw.prompt = false)
    (hk : falsyStr (dictGet kw.api_keys "openrouter") = false)
    (hop : ∀ k, ∃ e, op k = Except.error e ∧ transportErr e.cls = true) :
    (runTrace kw op u f).calls = 3 ∧
    ∃ e, op 2 = Except.error e ∧
      run kw op u f = .returned ⟨some (errorMsg e), none, none, none⟩ := by
  have hretry : ∀ k e, op k = Except.error e → retryable e.cls = true := by
    intro k e he
    obtain ⟨e', he', ht⟩ := hop k
    rw [he] at he'
    cases he'
    exact (transportErr_retryable_caught _ ht).1
  have hfuel : (kw.max_retries.getD DEFAULT_MAX_RETRIES + 1).toNat = 3 := by
    rw [hmr]; rfl
  obtain ⟨hcalls, hout⟩ := retryAux_allfail op u f
    (kw.retry_multiplier.getD DEFAULT_RETRY_MULTIPLIER)
    (kw.max_delay.getD DEFAULT_MAX_DELAY) hretry 3 0
    (kw.initial_delay.getD DEFAULT_INITIAL_DELAY)
    (by intro j hj; obtain ⟨e, he, _⟩ := hop j; exact ⟨e, by simpa using he⟩)
  obtain ⟨e2, he2, ht2⟩ := hop 2
  have hout2 := hout e2 (by simpa using he2) (by omega)
  constructor
  · rw [runTrace_eq_of_valid kw op u f hp hk]
    unfold withRetries
    rw [hfuel]
    exact hcalls
  · refine ⟨e2, he2, ?_⟩
    rw [run_eq_of_valid kw op u f hp hk]
    unfold withRetries
    rw [hfuel, hout2]
    simp [(transportErr_retryable_caught _ ht2).2]

/-- C9 witness: every attempt timing out with message `"boom"` under
`max_retries = 2` gives 3 attempts and the error tuple. -/
theorem C9_retry_exhaustion_witness :
    (runTrace kwValidTwo opTimeout uOne fZero).calls = 3 ∧
    ∃ e, opTimeout 2 = Except.error e ∧
      run kwValidTwo opTimeout uOne fZero =
        .returned ⟨some (errorMsg e), none, none, none⟩ :=
  C9_retry_exhaustion kwValidTwo opTimeout uOne fZero rfl (by decide) (by decide)
    (by intro k; exact ⟨⟨.timeout, "boom"⟩, rfl, rfl⟩)

/-- C1 counterexample: `run` DOES raise.  With a valid prompt and key,
`max_retries = 0`, and a wrapped call failing with a plain `ValueError`
(which the retry wrapper treats as retryable), the exhausted error is
re-raised by the wrapper and is not caught by `run`'s
`except (RequestException, JSONDecodeError)` clause, so it escapes the
entry point instead of being turned into a message tuple. -/
theorem C1_counterexample :
    run kwValidZero opValueErr uOne fZero = .raised ⟨.valueError, "bad"⟩ := by
  norm_num [run, withRetries, retryAux, falsyStr, dictGet, caughtByRun,
    opValueErr, kwValidZero]
  decide

/-- C1 amended: `run` never raises — returning a 4-tuple whose first
element is a validation message, the model's response text, or the fixed
error message — provided `max_retries` is non-negative (or defaulted) and
every failure of the wrapped call is of a class `run` catches (the
`RequestException` family or `JSONDecodeError`).  A plain `ValueError`
surviving retry exhaustion, or any error class outside the retryable set,
escapes `run` as an exception. -/
theorem C1_run_returns_amended (kw : RunKwargs) (op : Nat → Except PyErr String)
    (u f : Nat → ℚ)
    (hmr : 0 ≤ kw.max_retries.getD DEFAULT_MAX_RETRIES)
    (hop : ∀ k e, op k = Except.error e → caughtByRun e.cls = true) :
    ∃ tup : RunTuple, run kw op u f = .returned tup ∧
      ∃ s, tup.fst = some s ∧
        (s = "No prompt has been specified." ∨
         s = "No OpenRouter API key has been specified." ∨
         (∃ k a, op k = Except.ok a ∧ s = a) ∨
         (∃ k e, op k = Except.error e ∧ s = errorMsg e)) := by
  cases hp : falsyStr kw.prompt with
  | true =>
    exact ⟨⟨some "No prompt has been specified.", none, none, none⟩,
      by simp [run, hp], _, rfl, Or.inl rfl⟩
  | false =>
    cases hk : falsyStr (dictGet kw.api_keys "openrouter") with
    | true =>
      exact ⟨⟨some "No OpenRouter API key has been specified.", none, none, none⟩,
        by simp [run, hp, hk], _, rfl, Or.inr (Or.inl rfl)⟩
    | false =>
      have hfuel : (kw.max_retries.getD DEFAULT_MAX_RETRIES + 1).toNat ≠ 0 := by
        omega
      rcases retryAux_outcome_cases op u f
          (kw.retry_multiplier.getD DEFAULT_RETRY_MULTIPLIER)
          (kw.max_delay.getD DEFAULT_MAX_DELAY)
          (kw.max_retries.getD DEFAULT_MAX_RETRIES + 1).toNat 0
          (kw.initial_delay.getD DEFAULT_INITIAL_DELAY) hfuel with h | h
      · obtain ⟨j, a, hja, hout⟩ := h
        refine ⟨⟨some a, none, none, none⟩, ?_,
          a, rfl, Or.inr (Or.inr (Or.inl ⟨j, a, hja, rfl⟩))⟩
        rw [run_eq_of_valid kw op u f hp hk]
        unfold withRetries
        rw [hout]
      · obtain ⟨j, e, hje, hout⟩ := h
        refine ⟨⟨some (errorMsg e), none, none, none⟩, ?_,
          errorMsg e, rfl, Or.inr (Or.inr (Or.inr ⟨j, e, hje, rfl⟩))⟩
        rw [run_eq_of_valid kw op u f hp hk]
        unfold withRetries
        rw [hout]
        simp [hop j e hje]

/-- C1 amended witness: a valid call whose wrapped operation succeeds with
text `"4"` returns a tuple whose first element is a message string. -/
theorem C1_run_returns_amended_witness :
    ∃ tup : RunTuple, run kwValid opOk4 uOne fZero = .returned tup ∧
      ∃ s, tup.fst = some s ∧
        (s = "No prompt has been specified." ∨
         s = "No OpenRouter API key has been specified." ∨
         (∃ k a, opOk4 k = Except.ok a ∧ s = a) ∨
         (∃ k e, opOk4 k = Except.error e ∧ s = errorMsg e)) :=
  C1_run_returns_amended kwValid opOk4 uOne fZero (by decide)
    (by intro k e h; simp [opOk4] at h)

/-- C7: with all optional parameters absent the assembled request payload
contains only the keys `model`, `messages` and `temperature`; whenever at
least one provider-routing preference is present, exactly the present ones
are grouped into a nested object under the `provider` field of the extra
body, and that field is omitted entirely when none are present. -/
theorem C7_payload_assembly :
    (∀ mo pr key : String,
      (requestPayload { model := mo, prompt := pr, api_key := key }).map Prod.fst =
        ["model", "messages", "temperature"]) ∧
    (∀ p : ModelParams, provider_prefs p = [] →
      "provider" ∉ (requestPayload p).map Prod.fst) ∧
    (∀ p : ModelParams, provider_prefs p ≠ [] →
      ("provider", JVal.obj (provider_prefs p)) ∈ requestPayload p) ∧
    (∀ p : ModelParams,
      (("order" ∈ (provider_prefs p).map Prod.fst) ↔ p.provider_order.isSome = true) ∧
      (("allow_fallbacks" ∈ (provider_prefs p).map Prod.fst) ↔
        p.allow_fallbacks.isSome = true) ∧
      (("require_parameters" ∈ (provider_prefs p).map Prod.fst) ↔
        p.require_parameters.isSome = true) ∧
      (("data_collection" ∈ (provider_prefs p).map Prod.fst) ↔
        p.data_collection.isSome = true) ∧
      (("ignore" ∈ (provider_prefs p).map Prod.fst) ↔
        p.ignore_providers.isSome = true) ∧
      (("quantizations" ∈ (provider_prefs p).map Prod.fst) ↔
        p.quantizations.isSome = true) ∧
      (("sort" ∈ (provider_prefs p).map Prod.fst) ↔ p.sort.isSome = true)) := by
  refine ⟨?_, ?_, ?_, ?_⟩
  · intro mo pr key
    rfl
  · intro p h hmem
    have hext : extra_body p = none := by simp [extra_body, h]
    simp [requestPayload, hext, params, pair_mem_optEntry] at hmem
  · intro p h
    cases hpp : provider_prefs p with
    | nil => exact absurd hpp h
    | cons x xs =>
      have hext : extra_body p = some [("provider", JVal.obj (x :: xs))] := by
        simp [extra_body, hpp]
      simp [requestPayload, hext]
  · intro p
    refine ⟨?_, ?_, ?_, ?_, ?_, ?_, ?_⟩ <;>
      (simp [provider_prefs, pair_mem_optEntry, Option.map_eq_some',
        Option.isSome_iff_exists]; aesop)

/-- C7 witness: the payload for a call with no optional parameters has
exactly the three base keys, and a call with only `sort` present carries a
`provider` object holding exactly the `sort` preference. -/
theorem C7_payload_assembly_witness :
    (requestPayload { model := "m", prompt := "p", api_key := "k" }).map Prod.fst =
      ["model", "messages", "temperature"] ∧
    ("provider", JVal.obj (provider_prefs pSortOnly)) ∈ requestPayload pSortOnly :=
  ⟨C7_payload_assembly.1 "m" "p" "k",
   C7_payload_assembly.2.2.1 pSortOnly
     (by simp [pSortOnly, provider_prefs, optEntry])⟩

end OpenRouter
